import Mathlib

/-
Shallow embedding of the JSBSim UDP bridge (jsbsim_bridge.py and
bridge_jsbsim.py).

The flight-dynamics engine (FDE) is modelled through the property-access
interface the bridge consumes: a capability set of property names the
loaded model accepts for writing, and an association list of current
property values.  Python floats are modelled as rationals; the only float
operations the verified code paths perform are comparisons, min/max,
subtraction and multiplication, which are exact on the modelled values.
Physics stepping (fdm.run) is an opaque parameter `stepFn`, and
math.cos(math.radians _) is an opaque parameter `cosRad`.
-/

namespace JSBSim

/-- JSON-like values used on the wire (outbound telemetry frames). -/
inductive J where
  | num (q : ℚ)
  | str (s : String)
  | bool (b : Bool)
  | obj (fields : List (String × J))

/-- Values appearing in decoded inbound control datagrams. -/
inductive MVal where
  | num (q : ℚ)
  | bool (b : Bool)
deriving DecidableEq

/-- A decoded inbound JSON object: association list of fields. -/
abbrev Msg := List (String × MVal)

/-- A network address (host, port), as returned by recvfrom. -/
abbrev Addr := String × ℕ

/-- Model of the FDE's property space as the bridge sees it:
`caps` is the set of names the loaded model accepts for writing
(a write to any other name raises), `props` the current values. -/
structure FDM where
  caps : List String
  props : List (String × ℚ)

/-- Reading `self.fdm[n]`: `none` models the raised exception for a
property that is not available. -/
def FDM.get? (f : FDM) (n : String) : Option ℚ :=
  f.props.lookup n

/-- Whether a write to property `n` is accepted by the loaded model. -/
def FDM.accepts (f : FDM) (n : String) : Bool :=
  f.caps.contains n

/-- An unconditional property write (used once a write is known to be
accepted, and for the bridge_jsbsim.py variant which writes without a
try/except). -/
def FDM.setProp (f : FDM) (n : String) (v : ℚ) : FDM :=
  { f with props := (n, v) :: f.props }

/-- `try: self.fdm[n] = v except: pass` — the write takes effect only if
the model accepts the name. -/
def FDM.write (f : FDM) (n : String) (v : ℚ) : FDM :=
  if f.accepts n then f.setProp n v else f

/-- `max(0.0, min(1.0, x))` as in set_controls / _apply_all_brakes. -/
def clamp01 (x : ℚ) : ℚ := max 0 (min 1 x)

/-- `max(-1.0, min(1.0, x))` as in set_controls. -/
def clamp11 (x : ℚ) : ℚ := max (-1) (min 1 x)

/-- JSBSimBridge._set_if_exists: try several candidate properties until
one sticks.  Returns the updated FDM, the list of successful writes
performed (at most one), and whether any candidate succeeded. -/
def setIfExists (f : FDM) (names : List String) (v : ℚ) : FDM × List (String × ℚ) × Bool :=
  match names with
  | [] => (f, [], false)
  | n :: rest =>
      if f.accepts n then (f.setProp n v, [(n, v)], true)
      else setIfExists f rest v

/-- The write that `setIfExists` performs on `f` for candidate list `ns`
and value `v`: the first accepted candidate receives `v`; no write if no
candidate is accepted. -/
def axisLog (f : FDM) (ns : List String) (v : ℚ) : List (String × ℚ) :=
  match ns.find? f.accepts with
  | some n => [(n, v)]
  | none => []

/-- Apply a list of (candidate names, value) axis writes in order via
`setIfExists`, collecting the successful writes. -/
def applyAxes (f : FDM) : List (List String × ℚ) → FDM × List (String × ℚ)
  | [] => (f, [])
  | (ns, v) :: rest =>
      let r := setIfExists f ns v
      let rr := applyAxes r.1 rest
      (rr.1, r.2.1 ++ rr.2)

/-- The writes `applyAxes` performs, expressed against a fixed FDM
(capabilities are not changed by property writes). -/
def axesLog (f : FDM) : List (List String × ℚ) → List (String × ℚ)
  | [] => []
  | (ns, v) :: rest => axisLog f ns v ++ axesLog f rest

/-- Bridge-process state established at initialization
(JSBSimBridge.__init__ / initialize). -/
structure Bridge where
  port : ℕ
  origin_lat : ℚ
  origin_lon : ℚ
  origin_alt : ℚ
  model_name : String
  is_rotorcraft : Bool
  engine_running : Bool

/-- The constants fixed in JSBSimBridge.__init__ (port 5555, origin
lat 37.4, lon -122.4, alt 100.0 ft, engine off). -/
def initBridge : Bridge :=
  { port := 5555
    origin_lat := 37.4
    origin_lon := -122.4
    origin_alt := 100
    model_name := ""
    is_rotorcraft := false
    engine_running := false }

/-- JSBSimBridge.set_controls: clamp each axis, then route it to the
rotorcraft or fixed-wing actuator properties through _set_if_exists.
Returns the updated FDM and the successful writes performed. -/
def set_controls (b : Bridge) (f : FDM) (throttle roll pitch yaw : ℚ) :
    FDM × List (String × ℚ) :=
  let throttle := clamp01 throttle
  let roll := clamp11 roll
  let pitch := clamp11 pitch
  let yaw := clamp11 yaw
  if b.is_rotorcraft then
    applyAxes f
      [(["fcs/collective-cmd-norm", "fcs/rotor-collective-cmd-norm"], throttle),
       (["fcs/roll-cmd-norm"], roll),
       (["fcs/pitch-cmd-norm"], pitch),
       (["fcs/yaw-cmd-norm", "fcs/anti-torque-cmd-norm"], yaw)]
  else
    applyAxes f
      [(["fcs/throttle-cmd-norm[0]"], throttle),
       (["fcs/aileron-cmd-norm"], roll),
       (["fcs/elevator-cmd-norm"], pitch),
       (["fcs/rudder-cmd-norm"], yaw)]

/-- sim_dt fixed at 100 Hz in JSBSimBridge.__init__. -/
def simDt : ℚ := 0.01

/-- Warm-up loop bound in _start_engine_sequence: int(1.0 / sim_dt),
which is 100 for sim_dt = 0.01. -/
def warmupSteps : ℕ := 100

/-- Settle loop bound in _start_engine_sequence: the literal range(100). -/
def settleSteps : ℕ := 100

/-- Brake command properties attempted by _apply_all_brakes. -/
def brakeCmdProps : List String :=
  ["fcs/left-brake-cmd", "fcs/right-brake-cmd", "fcs/brake-cmd-norm", "gear/parking-brake"]

/-- _apply_all_brakes(v): clamp v to [0,1] and attempt each brake
property with it. -/
def applyAllBrakesWrites (v : ℚ) : List (String × ℚ) :=
  brakeCmdProps.map (fun n => (n, clamp01 v))

/-- _force_afcs_manual(enable): the (name, value) writes attempted. -/
def afcsManualWrites (enable : Bool) : List (String × ℚ) :=
  (["ap/afcs/roll-channel-active-norm", "ap/afcs/pitch-channel-active-norm",
    "ap/afcs/yaw-channel-active-norm", "ap/afcs/altitude-channel-active-norm",
    "ap/afcs/sas-active-norm", "ap/afcs/attitude-hold-active-norm"].map
      (fun n => (n, if enable then (1 : ℚ) else 0))) ++
  [("ap/afcs/heading-hold-enable", if enable then (1 : ℚ) else 0)] ++
  (["ap/afcs/phi-trim-rad", "ap/afcs/theta-trim-rad", "ap/afcs/psi-trim-rad",
    "ap/afcs/altitude-trim-ft"].map (fun n => (n, (0 : ℚ))))

/-- _configure_engine_for_start: fuel/ignition writes, governor writes,
then _force_afcs_manual(False). -/
def configureEngineWrites : List (String × ℚ) :=
  [("propulsion/cutoff_cmd", 0), ("fcs/mixture-cmd-norm[0]", 1), ("propulsion/ignition_cmd", 1),
   ("fcs/rpm-governor-active-norm", 1), ("fcs/nominal-rpm", 324),
   ("propulsion/engine[0]/governor", 1)] ++ afcsManualWrites false

/-- Attempt a list of writes in order, each guarded by try/except. -/
def applyWrites (f : FDM) (l : List (String × ℚ)) : FDM :=
  l.foldl (fun f p => f.write p.1 p.2) f

/-- n consecutive calls to fdm.run() with the result ignored. -/
def runN (stepFn : FDM → FDM × Bool) : ℕ → FDM → FDM
  | 0, f => f
  | n + 1, f => runN stepFn n (stepFn f).1

/-- Observable events of the engine start sequence: an attempted
property write (the command issued, whether or not the model accepts the
name), one simulation step, and the final `self.engine_running = True`
assignment that declares the RUNNING state. -/
inductive Ev where
  | set (n : String) (v : ℚ)
  | step
  | flagRunning
deriving DecidableEq

/-- All writes attempted by _start_engine_sequence before the starter is
asserted: _apply_all_brakes(0.0) then _configure_engine_for_start(). -/
def engineStartAttempts : List (String × ℚ) :=
  applyAllBrakesWrites 0 ++ configureEngineWrites

/-- The event trace of one non-trivial run of _start_engine_sequence
(straight-line code, so the trace is fixed). -/
def engineStartTrace : List Ev :=
  (engineStartAttempts.map (fun p => Ev.set p.1 p.2)) ++
  [Ev.set "propulsion/starter_cmd" 1] ++ List.replicate warmupSteps Ev.step ++
  [Ev.set "propulsion/starter_cmd" 0, Ev.set "propulsion/engine[0]/set-running" 1] ++
  List.replicate settleSteps Ev.step ++ [Ev.flagRunning]

/-- JSBSimBridge._start_engine_sequence.  If the engine is already
running it returns immediately; otherwise it releases brakes, configures
fuel/ignition/governor/AFCS, asserts the starter, runs the warm-up
steps, de-asserts the starter, forces the running flag, runs the settle
steps, and finally sets engine_running.  Returns the new bridge state,
the new FDM state, and the event trace of the invocation. -/
def startEngineSequence (stepFn : FDM → FDM × Bool) (b : Bridge) (f : FDM) :
    Bridge × FDM × List Ev :=
  if b.engine_running then (b, f, [])
  else
    let f1 := applyWrites f engineStartAttempts
    let f2 := f1.write "propulsion/starter_cmd" 1
    let f3 := runN stepFn warmupSteps f2
    let f4 := (f3.write "propulsion/starter_cmd" 0).write "propulsion/engine[0]/set-running" 1
    let f5 := runN stepFn settleSteps f4
    ({ b with engine_running := true }, f5, engineStartTrace)

/-- Trace checker: RUNNING is declared only after the starter has been
asserted (the observable entry into the STARTING phase). -/
def runningAfterStart : Bool → List Ev → Bool
  | _, [] => true
  | seen, Ev.flagRunning :: rest => seen && runningAfterStart seen rest
  | seen, Ev.step :: rest => runningAfterStart seen rest
  | seen, Ev.set n v :: rest =>
      if n = "propulsion/starter_cmd" ∧ v = 1 then runningAfterStart true rest
      else runningAfterStart seen rest

/-- Trace checker: once the starter is asserted, it is not de-asserted
until at least `warmupSteps` simulation steps (1.0 s at sim_dt = 0.01)
have elapsed.  The accumulator counts steps since the last assertion. -/
def warmupOk : Option ℕ → List Ev → Bool
  | _, [] => true
  | cnt, Ev.step :: rest => warmupOk (cnt.map (· + 1)) rest
  | cnt, Ev.flagRunning :: rest => warmupOk cnt rest
  | cnt, Ev.set n v :: rest =>
      if n = "propulsion/starter_cmd" ∧ v = 1 then warmupOk (some 0) rest
      else if n = "propulsion/starter_cmd" ∧ v = 0 then
        match cnt with
        | some k => decide (warmupSteps ≤ k) && warmupOk none rest
        | none => warmupOk none rest
      else warmupOk cnt rest

/-- Trace checker: every de-assertion of the starter is followed by at
least `settleSteps` simulation steps (1.0 s) before RUNNING is declared.
The accumulator counts steps since the last de-assertion. -/
def settleOk : Option ℕ → List Ev → Bool
  | _, [] => true
  | cnt, Ev.step :: rest => settleOk (cnt.map (· + 1)) rest
  | cnt, Ev.flagRunning :: rest =>
      match cnt with
      | some k => decide (settleSteps ≤ k) && settleOk cnt rest
      | none => settleOk cnt rest
  | cnt, Ev.set n v :: rest =>
      if n = "propulsion/starter_cmd" ∧ v = 0 then settleOk (some 0) rest
      else settleOk cnt rest

/-- The flat-Earth local-frame block of JSBSimBridge.get_state.
`cosRad` stands for math.cos(math.radians _).  Returns
(unity_x, unity_y, unity_z). -/
def toLocalFrame (cosRad : ℚ → ℚ) (originLat originLon originAlt lat lon alt : ℚ) :
    ℚ × ℚ × ℚ :=
  let latDiff := lat - originLat
  let lonDiff := lon - originLon
  let altDiff := alt - originAlt
  let mPerDegLat : ℚ := 111320
  let mPerDegLon : ℚ := 111320 * cosRad lat
  let mPerFt : ℚ := 0.3048
  (lonDiff * mPerDegLon, altDiff * mPerFt, latDiff * mPerDegLat)

/-- The FDE state properties read by JSBSimBridge.get_state, in source
order. -/
def stateProps : List String :=
  ["position/lat-geod-deg", "position/long-gc-deg", "position/h-sl-ft",
   "attitude/roll-rad", "attitude/pitch-rad", "attitude/psi-rad",
   "velocities/u-fps", "velocities/v-fps", "velocities/w-fps",
   "velocities/vc-kts", "velocities/p-rad_sec", "velocities/q-rad_sec",
   "velocities/r-rad_sec", "propulsion/engine[0]/engine-rpm",
   "propulsion/engine[0]/thrust-lbs"]

/-- JSBSimBridge.get_state: read the FDE state properties and build the
telemetry frame; if any read raises, return None. -/
def getState (cosRad : ℚ → ℚ) (b : Bridge) (f : FDM) : Option J :=
  match f.get? "position/lat-geod-deg", f.get? "position/long-gc-deg",
        f.get? "position/h-sl-ft", f.get? "attitude/roll-rad",
        f.get? "attitude/pitch-rad", f.get? "attitude/psi-rad",
        f.get? "velocities/u-fps", f.get? "velocities/v-fps",
        f.get? "velocities/w-fps", f.get? "velocities/vc-kts",
        f.get? "velocities/p-rad_sec", f.get? "velocities/q-rad_sec",
        f.get? "velocities/r-rad_sec", f.get? "propulsion/engine[0]/engine-rpm",
        f.get? "propulsion/engine[0]/thrust-lbs" with
  | some lat, some lon, some alt, some roll, some pitch, some yaw, some u, some v,
    some w, some vc, some p, some q, some r, some rpm, some thrust =>
      let local3 := toLocalFrame cosRad b.origin_lat b.origin_lon b.origin_alt lat lon alt
      some (J.obj
        [("position", J.obj
            [("lat", J.num lat), ("lon", J.num lon), ("alt", J.num alt),
             ("unity_x", J.num local3.1), ("unity_y", J.num local3.2.1),
             ("unity_z", J.num local3.2.2)]),
         ("orientation", J.obj
            [("roll", J.num roll), ("pitch", J.num pitch), ("yaw", J.num yaw)]),
         ("velocity", J.obj
            [("u", J.num u), ("v", J.num v), ("w", J.num w), ("airspeed", J.num vc)]),
         ("angular_velocity", J.obj
            [("p", J.num p), ("q", J.num q), ("r", J.num r)]),
         ("engine", J.obj
            [("rpm", J.num rpm), ("thrust", J.num thrust)]),
         ("meta", J.obj
            [("model", J.str b.model_name), ("rotorcraft", J.bool b.is_rotorcraft)])])
  | _, _, _, _, _, _, _, _, _, _, _, _, _, _, _ => none

/-- Top-level field names of a JSON object. -/
def topKeys : J → List String
  | J.obj l => l.map (fun p => p.1)
  | _ => []

/-- Top-level field names together with each field's own object keys. -/
def frameShape : J → List (String × List String)
  | J.obj l => l.map (fun p => (p.1, topKeys p.2))
  | _ => []

/-- Path lookup inside a JSON object tree. -/
def getPath : J → List String → Option J
  | j, [] => some j
  | J.obj l, k :: rest =>
      match l.lookup k with
      | some j => getPath j rest
      | none => none
  | _, _ :: _ => none

/-- `float(msg.get(k, d))` on the modelled inbound value domain. -/
def getFloatD (m : Msg) (k : String) (d : ℚ) : ℚ :=
  match m.lookup k with
  | none => d
  | some (MVal.num q) => q
  | some (MVal.bool b) => if b then 1 else 0

/-- Python truthiness of `msg.get(k, False)`. -/
def getTruthy (m : Msg) (k : String) : Bool :=
  match m.lookup k with
  | none => false
  | some (MVal.num q) => decide (q ≠ 0)
  | some (MVal.bool b) => b

/-- Integer truncation toward zero, as Python int() on a float. -/
def truncInt (q : ℚ) : ℤ := q.num / (q.den : ℤ)

/-- `int(controls.get("seq", -1))` in bridge_jsbsim.py. -/
def getSeq (m : Msg) : ℤ :=
  match m.lookup "seq" with
  | none => -1
  | some (MVal.num q) => truncInt q
  | some (MVal.bool b) => if b then 1 else 0

/-- The control values one inbound datagram carries for the tick, as
extracted in JSBSimBridge.run_server (absent axes default to 0.0,
absent engine_start to False). -/
structure Controls where
  throttle : ℚ
  aileron : ℚ
  elevator : ℚ
  rudder : ℚ
  engine_start : Bool
deriving DecidableEq

/-- The field extraction run_server performs on a decoded message. -/
def decodeControls (m : Msg) : Controls :=
  { throttle := getFloatD m "throttle" 0
    aileron := getFloatD m "aileron" 0
    elevator := getFloatD m "elevator" 0
    rudder := getFloatD m "rudder" 0
    engine_start := getTruthy m "engine_start" }

/-- The message keys run_server consumes. -/
def controlKeys : List String :=
  ["throttle", "aileron", "elevator", "rudder", "engine_start"]

/-- State of the run_server loop (jsbsim_bridge.py). -/
structure Srv where
  b : Bridge
  fdm : FDM
  running : Bool

/-- An outbound datagram of run_server: destination port and payload
(the host is fixed to 127.0.0.1). -/
abbrev ServerSend := ℕ × J

/-- The receive block of one run_server iteration: if a datagram was
decoded, trigger the start sequence when engine_start is truthy and
apply the four control axes. -/
def recvPhase (stepFn : FDM → FDM × Bool) (recv : Option Msg) (s : Srv) : Srv :=
  match recv with
  | none => s
  | some m =>
      let c := decodeControls m
      let bf :=
        if c.engine_start then
          ((startEngineSequence stepFn s.b s.fdm).1, (startEngineSequence stepFn s.b s.fdm).2.1)
        else (s.b, s.fdm)
      { s with
          b := bf.1
          fdm := (set_controls bf.1 bf.2 c.throttle c.aileron c.elevator c.rudder).1 }

/-- JSBSimBridge.step: run one FDE step; on success build the telemetry
frame, otherwise return None. -/
def stepSim (cosRad : ℚ → ℚ) (stepFn : FDM → FDM × Bool) (b : Bridge) (f : FDM) :
    FDM × Option J :=
  let r := stepFn f
  if r.2 then (r.1, getState cosRad b r.1) else (r.1, none)

/-- The fixed-rate tick block of one run_server iteration: step the sim
and, if a state frame was produced, send it to port + 1. -/
def tickPhase (cosRad : ℚ → ℚ) (stepFn : FDM → FDM × Bool) (s : Srv) :
    Srv × List ServerSend :=
  let r := stepSim cosRad stepFn s.b s.fdm
  match r.2 with
  | some j => ({ s with fdm := r.1 }, [(s.b.port + 1, j)])
  | none => ({ s with fdm := r.1 }, [])

/-- One iteration of the run_server while-loop.  `recv` is the datagram
decoded this iteration (none for a socket timeout or decode failure),
`tickDue` whether wall-clock time reached the next tick deadline. -/
def runServerIter (cosRad : ℚ → ℚ) (stepFn : FDM → FDM × Bool)
    (recv : Option Msg) (tickDue : Bool) (s : Srv) : Srv × List ServerSend :=
  let s1 := recvPhase stepFn recv s
  if tickDue then tickPhase cosRad stepFn s1 else (s1, [])

/-- State of the bridge_jsbsim.py run loop. -/
structure Loop2 where
  client_addr : Option Addr
  seq_last_rx : ℤ
  fdm : FDM
  sim_time : ℚ

/-- UDP_SEND_PORT in bridge_jsbsim.py. -/
def sendPort : ℕ := 5556

/-- An outbound datagram of the bridge_jsbsim.py loop: destination
address and payload. -/
abbrev Send2 := Addr × J

/-- Property read in the bridge_jsbsim.py telemetry block; this variant
performs its reads without any error handling, so the model treats the
read as total (claims about this loop concern only send gating). -/
def FDM.getD (f : FDM) (n : String) : ℚ := (f.get? n).getD 0

/-- The telemetry dict built by bridge_jsbsim.py's run loop. -/
def telemetry2 (s : Loop2) : J :=
  J.obj
    [("seq", J.num (s.seq_last_rx : ℚ)),
     ("sim_time", J.num s.sim_time),
     ("lat_deg", J.num (s.fdm.getD "position/lat-gc-deg")),
     ("lon_deg", J.num (s.fdm.getD "position/long-gc-deg")),
     ("alt_m", J.num (s.fdm.getD "position/h-sl-meters")),
     ("agl_m", J.num (s.fdm.getD "position/h-agl-meters")),
     ("roll_deg", J.num (s.fdm.getD "attitude/roll-deg")),
     ("pitch_deg", J.num (s.fdm.getD "attitude/pitch-deg")),
     ("heading_deg", J.num (s.fdm.getD "attitude/heading-deg")),
     ("p_rad_s", J.num (s.fdm.getD "rates/p-rad_sec")),
     ("q_rad_s", J.num (s.fdm.getD "rates/q-rad_sec")),
     ("r_rad_s", J.num (s.fdm.getD "rates/r-rad_sec")),
     ("vt_fps", J.num (s.fdm.getD "velocities/vt-fps")),
     ("vc_kts", J.num (s.fdm.getD "velocities/vc-kts"))]

/-- One iteration of bridge_jsbsim.py's run loop: non-blocking receive
(learning the client address from a valid datagram and writing the four
clamped control properties), one sim step, then telemetry to the client
address if one is known.  `getTime` models fdm.get_sim_time_s(). -/
def runIter2 (stepFn : FDM → FDM × Bool) (getTime : FDM → ℚ)
    (recv : Option (Addr × Msg)) (s : Loop2) : Loop2 × List Send2 :=
  let s1 :=
    match recv with
    | none => s
    | some (addr, m) =>
        let thr := getFloatD m "throttle" 0
        let ail := getFloatD m "aileron" 0
        let ele := getFloatD m "elevator" 0
        let rud := getFloatD m "rudder" 0
        let f := ((((s.fdm.setProp "propulsion/throttle-cmd-norm" (clamp01 thr)).setProp
            "fcs/aileron-cmd-norm" (clamp11 ail)).setProp
            "fcs/elevator-cmd-norm" (clamp11 ele)).setProp
            "fcs/rudder-cmd-norm" (clamp11 rud))
        { s with client_addr := some addr, seq_last_rx := getSeq m, fdm := f }
  let f2 := (stepFn s1.fdm).1
  let s2 := { s1 with fdm := f2, sim_time := getTime f2 }
  match s2.client_addr with
  | some addr => (s2, [((addr.1, sendPort), telemetry2 s2)])
  | none => (s2, [])

/-- A finite run of bridge_jsbsim.py's loop over a list of per-iteration
receive results, collecting all sends. -/
def runLoop2 (stepFn : FDM → FDM × Bool) (getTime : FDM → ℚ) (s : Loop2) :
    List (Option (Addr × Msg)) → Loop2 × List Send2
  | [] => (s, [])
  | i :: rest =>
      let r := runIter2 stepFn getTime i s
      let rr := runLoop2 stepFn getTime r.1 rest
      (rr.1, r.2 ++ rr.2)

/-- An FDM with no readable properties and no write capabilities. -/
def fdmEmpty : FDM := { caps := [], props := [] }

/-- An FDM whose state properties all read successfully, positioned
exactly at the fixed origin (lat 37.4, lon -122.4, alt 100.0 ft). -/
def fdmAtOrigin : FDM :=
  { caps := []
    props :=
      [("position/lat-geod-deg", 37.4), ("position/long-gc-deg", -122.4),
       ("position/h-sl-ft", 100), ("attitude/roll-rad", 0),
       ("attitude/pitch-rad", 0), ("attitude/psi-rad", 0),
       ("velocities/u-fps", 0), ("velocities/v-fps", 0), ("velocities/w-fps", 0),
       ("velocities/vc-kts", 0), ("velocities/p-rad_sec", 0),
       ("velocities/q-rad_sec", 0), ("velocities/r-rad_sec", 0),
       ("propulsion/engine[0]/engine-rpm", 0), ("propulsion/engine[0]/thrust-lbs", 0)] }

/-- A freshly initialized server state whose FDM reads succeed. -/
def srvIdle : Srv := { b := initBridge, fdm := fdmAtOrigin, running := true }

/-- A freshly initialized server state whose FDM reads all fail. -/
def srvEmpty : Srv := { b := initBridge, fdm := fdmEmpty, running := true }

/-- A fresh bridge_jsbsim.py loop state: no client yet. -/
def loop2Init : Loop2 :=
  { client_addr := none, seq_last_rx := -1, fdm := fdmEmpty, sim_time := 0 }

/-- An FDM accepting two control properties, for concrete witnesses. -/
def fdmCaps : FDM :=
  { caps := ["fcs/aileron-cmd-norm", "fcs/rudder-cmd-norm"], props := [] }

theorem setProp_caps (f : FDM) (n : String) (v : ℚ) : (f.setProp n v).caps = f.caps := rfl

theorem setIfExists_eq_find (f : FDM) (v : ℚ) :
    ∀ ns : List String, setIfExists f ns v =
      match ns.find? f.accepts with
      | some n => (f.setProp n v, [(n, v)], true)
      | none => (f, [], false)
  | [] => rfl
  | n :: rest => by
      by_cases h : f.accepts n
      · simp [setIfExists, h, List.find?_cons_of_pos _ h]
      · have hh : f.accepts n = false := by simpa using h
        simp [setIfExists, hh, List.find?_cons_of_neg, setIfExists_eq_find f v rest]

theorem setIfExists_caps (f : FDM) (ns : List String) (v : ℚ) :
    (setIfExists f ns v).1.caps = f.caps := by
  rw [setIfExists_eq_find f v ns]
  cases ns.find? f.accepts <;> rfl

theorem setIfExists_log (f : FDM) (ns : List String) (v : ℚ) :
    (setIfExists f ns v).2.1 = axisLog f ns v := by
  rw [setIfExists_eq_find f v ns]
  unfold axisLog
  cases ns.find? f.accepts <;> rfl

theorem axisLog_congr (f g : FDM) (h : f.caps = g.caps) (ns : List String) (v : ℚ) :
    axisLog f ns v = axisLog g ns v := by
  have ha : f.accepts = g.accepts := by
    funext n
    simp [FDM.accepts, h]
  unfold axisLog
  rw [ha]

theorem applyAxes_spec (f : FDM) :
    ∀ (axes : List (List String × ℚ)) (g : FDM), g.caps = f.caps →
      (applyAxes g axes).1.caps = f.caps ∧ (applyAxes g axes).2 = axesLog f axes
  | [], g, h => ⟨h, rfl⟩
  | (ns, v) :: rest, g, h => by
      have hc : (setIfExists g ns v).1.caps = f.caps := by
        rw [setIfExists_caps]; exact h
      have ih := applyAxes_spec f rest (setIfExists g ns v).1 hc
      refine ⟨?_, ?_⟩
      · simpa [applyAxes] using ih.1
      · have hlog : (setIfExists g ns v).2.1 = axisLog f ns v := by
          rw [setIfExists_log, axisLog_congr g f h]
        simp [applyAxes, axesLog, hlog, ih.2]

/-- C2: the Property Gateway's trySet (_set_if_exists) attempts the
candidates in list order and stops at the first name the model accepts
(ns.find? f.accepts), writes the value only to that name (setProp
changes no other property), returns true iff some candidate was
accepted, and when every candidate fails returns false with the FDM
unchanged. -/
theorem trySet_first_accepted (f : FDM) (ns : List String) (v : ℚ) :
    (setIfExists f ns v =
      match ns.find? f.accepts with
      | some n => (f.setProp n v, [(n, v)], true)
      | none => (f, [], false)) ∧
    ((setIfExists f ns v).2.2 = true ↔ ∃ n ∈ ns, f.accepts n = true) ∧
    (∀ n m : String, n ≠ m → (f.setProp n v).get? m = f.get? m) := by
  refine ⟨setIfExists_eq_find f v ns, ?_, ?_⟩
  · rw [setIfExists_eq_find f v ns]
    cases hf : ns.find? f.accepts with
    | none =>
        rw [List.find?_eq_none] at hf
        simp only [Bool.false_eq_true, false_iff]
        rintro ⟨n, hn, ha⟩
        exact hf n hn ha
    | some n =>
        simp only [true_iff]
        exact ⟨n, List.mem_of_find?_eq_some hf, List.find?_some hf⟩
  · intro n m hnm
    have hb : (m == n) = false := beq_eq_false_iff_ne.mpr (Ne.symm hnm)
    simp [FDM.setProp, FDM.get?, List.lookup, hb]

/-- C2 witness: with a model accepting both properties, a setProp to one
name leaves the other unchanged, instantiating the only hypothesis of
the theorem at concrete distinct names. -/
theorem trySet_first_accepted_witness :
    (fdmCaps.setProp "fcs/aileron-cmd-norm" 1).get? "fcs/rudder-cmd-norm" =
      fdmCaps.get? "fcs/rudder-cmd-norm" :=
  (trySet_first_accepted fdmCaps ["fcs/aileron-cmd-norm"] 1).2.2
    "fcs/aileron-cmd-norm" "fcs/rudder-cmd-norm" (by decide)

theorem clamp01_oob : clamp01 (17/10) = 1 := by
  unfold clamp01
  rw [min_eq_left (by norm_num : (1 : ℚ) ≤ 17/10), max_eq_right (by norm_num : (0 : ℚ) ≤ 1)]

theorem clamp11_oob : clamp11 (-4) = -1 := by
  unfold clamp11
  rw [min_eq_right (by norm_num : (-4 : ℚ) ≤ 1), max_eq_left (by norm_num : (-4 : ℚ) ≤ -1)]

/-- C1: every write set_controls performs carries the clamped input:
the throttle axis value is the input clamped to [0,1] and the roll,
pitch, yaw axis values are the inputs clamped to [-1,1], for both the
rotorcraft and the fixed-wing property mapping; out-of-range inputs go
to the nearest boundary (1.7 to 1.0, -4.0 to -1.0). -/
theorem set_controls_clamps (b : Bridge) (f : FDM) (t r p y : ℚ) :
    ((set_controls b f t r p y).2 =
      if b.is_rotorcraft then
        axisLog f ["fcs/collective-cmd-norm", "fcs/rotor-collective-cmd-norm"] (clamp01 t) ++
        (axisLog f ["fcs/roll-cmd-norm"] (clamp11 r) ++
         (axisLog f ["fcs/pitch-cmd-norm"] (clamp11 p) ++
          axisLog f ["fcs/yaw-cmd-norm", "fcs/anti-torque-cmd-norm"] (clamp11 y)))
      else
        axisLog f ["fcs/throttle-cmd-norm[0]"] (clamp01 t) ++
        (axisLog f ["fcs/aileron-cmd-norm"] (clamp11 r) ++
         (axisLog f ["fcs/elevator-cmd-norm"] (clamp11 p) ++
          axisLog f ["fcs/rudder-cmd-norm"] (clamp11 y)))) ∧
    clamp01 (17/10) = 1 ∧ clamp11 (-4) = -1 := by
  refine ⟨?_, clamp01_oob, clamp11_oob⟩
  cases hrot : b.is_rotorcraft <;>
    simp only [set_controls, hrot, if_true, if_false, Bool.false_eq_true, Bool.true_eq_false,
      ite_true, ite_false] <;>
    rw [(applyAxes_spec f _ f rfl).2] <;>
    simp [axesLog]

/-- C3: requesting an engine start while already RUNNING is a no-op:
the sequence performs no events (no property writes, no steps) and
leaves the bridge state and all FDE properties unchanged; consequently a
second invocation right after any first invocation changes nothing
beyond the first invocation's final state. -/
theorem start_sequence_noop_when_running (stepFn : FDM → FDM × Bool) (b : Bridge) (f : FDM) :
    (b.engine_running = true → startEngineSequence stepFn b f = (b, f, [])) ∧
    startEngineSequence stepFn (startEngineSequence stepFn b f).1
        (startEngineSequence stepFn b f).2.1 =
      ((startEngineSequence stepFn b f).1, (startEngineSequence stepFn b f).2.1, []) := by
  have hrun : ∀ (b0 : Bridge) (f0 : FDM), b0.engine_running = true →
      startEngineSequence stepFn b0 f0 = (b0, f0, []) := by
    intro b0 f0 h
    simp [startEngineSequence, h]
  have hafter : (startEngineSequence stepFn b f).1.engine_running = true := by
    cases hb : b.engine_running <;> simp [startEngineSequence, hb]
  exact ⟨hrun b f, hrun _ _ hafter⟩

/-- C3 witness: a concrete already-running bridge, with the hypothesis
discharged by rfl. -/
theorem start_sequence_noop_when_running_witness :
    startEngineSequence (fun f => (f, true)) { initBridge with engine_running := true } fdmEmpty =
      ({ initBridge with engine_running := true }, fdmEmpty, []) :=
  (start_sequence_noop_when_running (fun f => (f, true))
    { initBridge with engine_running := true } fdmEmpty).1 rfl

set_option maxRecDepth 10000 in
/-- C4: in every execution of the start sequence, RUNNING is declared
only after the starter has been asserted (the pass through STARTING);
once asserted, the starter is not de-asserted before warmupSteps = 100
fixed-size simulation steps (1.0 simulated second at sim_dt = 0.01); and
every de-assertion is followed by settleSteps = 100 further steps before
RUNNING is declared. -/
theorem engine_start_trace_safe (stepFn : FDM → FDM × Bool) (b : Bridge) (f : FDM) :
    runningAfterStart false (startEngineSequence stepFn b f).2.2 = true ∧
    warmupOk none (startEngineSequence stepFn b f).2.2 = true ∧
    settleOk none (startEngineSequence stepFn b f).2.2 = true := by
  have htr : (startEngineSequence stepFn b f).2.2 =
      if b.engine_running then [] else engineStartTrace := by
    cases hb : b.engine_running <;> simp [startEngineSequence, hb]
  rw [htr]
  cases b.engine_running
  · simp only [Bool.false_eq_true, if_false]
    exact ⟨by decide, by decide, by decide⟩
  · simp only [if_true]
    exact ⟨rfl, rfl, rfl⟩

theorem getState_at_origin (cosRad : ℚ → ℚ) :
    getState cosRad initBridge fdmAtOrigin = some (J.obj
      [("position", J.obj
          [("lat", J.num 37.4), ("lon", J.num (-122.4)), ("alt", J.num 100),
           ("unity_x", J.num (toLocalFrame cosRad 37.4 (-122.4) 100 37.4 (-122.4) 100).1),
           ("unity_y", J.num (toLocalFrame cosRad 37.4 (-122.4) 100 37.4 (-122.4) 100).2.1),
           ("unity_z", J.num (toLocalFrame cosRad 37.4 (-122.4) 100 37.4 (-122.4) 100).2.2)]),
       ("orientation", J.obj [("roll", J.num 0), ("pitch", J.num 0), ("yaw", J.num 0)]),
       ("velocity", J.obj
          [("u", J.num 0), ("v", J.num 0), ("w", J.num 0), ("airspeed", J.num 0)]),
       ("angular_velocity", J.obj [("p", J.num 0), ("q", J.num 0), ("r", J.num 0)]),
       ("engine", J.obj [("rpm", J.num 0), ("thrust", J.num 0)]),
       ("meta", J.obj [("model", J.str ""), ("rotorcraft", J.bool false)])]) := rfl

/-- C7: with the fixed origin (lat 37.4, lon -122.4, alt 100.0 ft) and
the current position exactly equal to the origin, the Coordinate
Transform yields local offsets exactly (0, 0, 0), and the telemetry
frame built by get_state carries unity_x = unity_y = unity_z = 0 —
for every possible cosine function, since the zero offsets do not
depend on it. -/
theorem origin_local_frame_zero (cosRad : ℚ → ℚ) :
    toLocalFrame cosRad 37.4 (-122.4) 100 37.4 (-122.4) 100 = (0, 0, 0) ∧
    (getState cosRad initBridge fdmAtOrigin).bind
      (fun j => getPath j ["position", "unity_x"]) = some (J.num 0) ∧
    (getState cosRad initBridge fdmAtOrigin).bind
      (fun j => getPath j ["position", "unity_y"]) = some (J.num 0) ∧
    (getState cosRad initBridge fdmAtOrigin).bind
      (fun j => getPath j ["position", "unity_z"]) = some (J.num 0) := by
  have h0 : toLocalFrame cosRad 37.4 (-122.4) 100 37.4 (-122.4) 100 = (0, 0, 0) := by
    simp only [toLocalFrame, Prod.mk.injEq]
    norm_num
  refine ⟨h0, ?_, ?_, ?_⟩ <;> rw [getState_at_origin cosRad, h0] <;> rfl

/-- C8 (amended): every telemetry frame get_state constructs has exactly
the top-level fields position, orientation, velocity, angular_velocity,
engine and meta, with exactly the documented sub-fields — and no
sequence or simTime field. -/
theorem telemetry_frame_shape (cosRad : ℚ → ℚ) (b : Bridge) (f : FDM) (j : J)
    (h : getState cosRad b f = some j) :
    frameShape j =
      [("position", ["lat", "lon", "alt", "unity_x", "unity_y", "unity_z"]),
       ("orientation", ["roll", "pitch", "yaw"]),
       ("velocity", ["u", "v", "w", "airspeed"]),
       ("angular_velocity", ["p", "q", "r"]),
       ("engine", ["rpm", "thrust"]),
       ("meta", ["model", "rotorcraft"])] := by
  unfold getState at h
  split at h
  · injection h with h
    subst h
    rfl
  · exact Option.noConfusion h

/-- C8 witness: the shape of a concretely constructed frame, with the
hypothesis discharged by rfl. -/
theorem telemetry_frame_shape_witness :
    frameShape ((getState (fun x => x) initBridge fdmAtOrigin).getD (J.obj [])) =
      [("position", ["lat", "lon", "alt", "unity_x", "unity_y", "unity_z"]),
       ("orientation", ["roll", "pitch", "yaw"]),
       ("velocity", ["u", "v", "w", "airspeed"]),
       ("angular_velocity", ["p", "q", "r"]),
       ("engine", ["rpm", "thrust"]),
       ("meta", ["model", "rotorcraft"])] :=
  telemetry_frame_shape (fun x => x) initBridge fdmAtOrigin
    ((getState (fun x => x) initBridge fdmAtOrigin).getD (J.obj [])) rfl

/-- C8 counterexample: a concretely constructed frame has exactly the
six documented top-level fields, and neither "sequence" nor "simTime"
is among them, refuting the claimed field list. -/
theorem telemetry_frame_no_sequence :
    (getState (fun x => x) initBridge fdmAtOrigin).map topKeys =
      some ["position", "orientation", "velocity", "angular_velocity", "engine", "meta"] ∧
    "sequence" ∉ ["position", "orientation", "velocity", "angular_velocity", "engine", "meta"] ∧
    "simTime" ∉ ["position", "orientation", "velocity", "angular_velocity", "engine", "meta"] :=
  ⟨rfl, by decide, by decide⟩

theorem getState_none (cosRad : ℚ → ℚ) (b : Bridge) (f : FDM)
    (h : ∃ n ∈ stateProps, f.get? n = none) : getState cosRad b f = none := by
  obtain ⟨n, hn, hr⟩ := h
  unfold stateProps at hn
  unfold getState
  split
  · fin_cases hn <;> simp_all
  · rfl

/-- C10: if reading any FDE state property during telemetry construction
fails, get_state returns None; the bridge loop then sends no telemetry
datagram for that tick and continues (the running flag is untouched). -/
theorem get_state_failure_tick (cosRad : ℚ → ℚ) (stepFn : FDM → FDM × Bool) (s : Srv)
    (h : ∃ n ∈ stateProps, ((stepFn s.fdm).1).get? n = none) :
    getState cosRad s.b (stepFn s.fdm).1 = none ∧
    (runServerIter cosRad stepFn none true s).2 = [] ∧
    (runServerIter cosRad stepFn none true s).1.running = s.running := by
  have hnone := getState_none cosRad s.b ((stepFn s.fdm).1) h
  have key : runServerIter cosRad stepFn none true s =
      ({ s with fdm := (stepFn s.fdm).1 }, []) := by
    cases hc : (stepFn s.fdm).2 <;>
      simp [runServerIter, recvPhase, tickPhase, stepSim, hc, hnone]
  exact ⟨hnone, by rw [key], by rw [key]⟩

/-- C10 witness: a concrete server whose FDM has no readable properties,
with the existence hypothesis discharged at a concrete property name. -/
theorem get_state_failure_tick_witness :
    getState (fun x => x) initBridge fdmEmpty = none ∧
    (runServerIter (fun x => x) (fun f => (f, true)) none true srvEmpty).2 = [] ∧
    (runServerIter (fun x => x) (fun f => (f, true)) none true srvEmpty).1.running =
      srvEmpty.running :=
  get_state_failure_tick (fun x => x) (fun f => (f, true)) srvEmpty
    ⟨"position/lat-geod-deg", by decide, rfl⟩

/-- C6 (amended): when the FDE step call reports failure, the bridge
publishes no telemetry for that tick, keeps its running flag (the loop
continues rather than shutting down), and carries the post-step FDM into
the next iteration, where the fixed-rate loop will invoke the step
again. -/
theorem step_failure_continues (cosRad : ℚ → ℚ) (stepFn : FDM → FDM × Bool) (s : Srv)
    (h : (stepFn s.fdm).2 = false) :
    (runServerIter cosRad stepFn none true s).2 = [] ∧
    (runServerIter cosRad stepFn none true s).1.running = s.running ∧
    (runServerIter cosRad stepFn none true s).1.fdm = (stepFn s.fdm).1 := by
  have key : runServerIter cosRad stepFn none true s =
      ({ s with fdm := (stepFn s.fdm).1 }, []) := by
    simp [runServerIter, recvPhase, tickPhase, stepSim, h]
  exact ⟨by rw [key], by rw [key], by rw [key]⟩

/-- C6 witness: concrete failing step function on a concrete server. -/
theorem step_failure_continues_witness :
    (runServerIter (fun x => x) (fun f => (f, false)) none true srvIdle).2 = [] ∧
    (runServerIter (fun x => x) (fun f => (f, false)) none true srvIdle).1.running =
      srvIdle.running ∧
    (runServerIter (fun x => x) (fun f => (f, false)) none true srvIdle).1.fdm =
      srvIdle.fdm :=
  step_failure_continues (fun x => x) (fun f => (f, false)) srvIdle rfl

/-- A step function that reports failure while pushing a probe marker
into the property list on each invocation, to observe that the loop
keeps stepping. -/
def stepFnFail : FDM → FDM × Bool := fun f =>
  ({ f with props := ("dbg/step-attempt", 1) :: f.props }, false)

/-- C6 counterexample: with a failing step, the loop flag stays true —
the bridge does NOT shut down — no telemetry is sent, and a second
iteration invokes the step again (the probe marker is pushed twice),
refuting "not retried and shuts down cleanly". -/
theorem step_failure_no_shutdown :
    (runServerIter (fun x => x) stepFnFail none true srvIdle).1.running = true ∧
    (runServerIter (fun x => x) stepFnFail none true srvIdle).2 = [] ∧
    ((runServerIter (fun x => x) stepFnFail none true
        (runServerIter (fun x => x) stepFnFail none true srvIdle).1).1.fdm.props.countP
      (fun q => q.1 == "dbg/step-attempt")) = 2 :=
  ⟨rfl, rfl, by decide⟩

/-- C9: decoding an inbound control message treats each absent axis
field among throttle, aileron, elevator, rudder as 0.0 and an absent
engine_start as false; and two messages agreeing on these five keys
decode identically, so fields with unknown names affect neither the
controls applied nor the engine-start decision. -/
theorem inbound_decode_defaults (m mm : Msg) :
    (m.lookup "throttle" = none → (decodeControls m).throttle = 0) ∧
    (m.lookup "aileron" = none → (decodeControls m).aileron = 0) ∧
    (m.lookup "elevator" = none → (decodeControls m).elevator = 0) ∧
    (m.lookup "rudder" = none → (decodeControls m).rudder = 0) ∧
    (m.lookup "engine_start" = none → (decodeControls m).engine_start = false) ∧
    ((∀ k ∈ controlKeys, m.lookup k = mm.lookup k) →
      decodeControls m = decodeControls mm) := by
  refine ⟨fun h => ?_, fun h => ?_, fun h => ?_, fun h => ?_, fun h => ?_, fun h => ?_⟩
  · simp [decodeControls, getFloatD, h]
  · simp [decodeControls, getFloatD, h]
  · simp [decodeControls, getFloatD, h]
  · simp [decodeControls, getFloatD, h]
  · simp [decodeControls, getTruthy, h]
  · have h1 := h "throttle" (by simp [controlKeys])
    have h2 := h "aileron" (by simp [controlKeys])
    have h3 := h "elevator" (by simp [controlKeys])
    have h4 := h "rudder" (by simp [controlKeys])
    have h5 := h "engine_start" (by simp [controlKeys])
    simp [decodeControls, getFloatD, getTruthy, h1, h2, h3, h4, h5]

/-- C9 witness: a message holding only an unknown field decodes exactly
like the empty message, with the agreement hypothesis discharged by
decide. -/
theorem inbound_decode_defaults_witness :
    decodeControls [("wind_speed", MVal.num 3)] = decodeControls [] :=
  (inbound_decode_defaults [("wind_speed", MVal.num 3)] []).2.2.2.2.2 (by decide)

/-- C5 (amended): in the bridge_jsbsim.py loop, while no valid inbound
datagram has been received the client endpoint stays unset and no
outbound telemetry datagram is ever sent, for any number of iterations.
(The jsbsim_bridge.py run_server loop does not satisfy the original
claim — see the counterexample.) -/
theorem no_telemetry_before_client (stepFn : FDM → FDM × Bool) (getTime : FDM → ℚ)
    (inputs : List (Option (Addr × Msg))) :
    ∀ s : Loop2, s.client_addr = none → (∀ i ∈ inputs, i = none) →
      (runLoop2 stepFn getTime s inputs).2 = [] ∧
      (runLoop2 stepFn getTime s inputs).1.client_addr = none := by
  induction inputs with
  | nil => exact fun s h0 _ => ⟨rfl, h0⟩
  | cons i rest ih =>
      intro s h0 hin
      have hi : i = none := hin i (by simp)
      subst hi
      have hiter : (runIter2 stepFn getTime none s).1.client_addr = none ∧
          (runIter2 stepFn getTime none s).2 = [] := by
        constructor <;> simp [runIter2, h0]
      have ihr := ih (runIter2 stepFn getTime none s).1 hiter.1
        (fun j hj => hin j (List.mem_cons_of_mem _ hj))
      constructor
      · simp [runLoop2, hiter.2, ihr.1]
      · simp [runLoop2, ihr.2]

/-- C5 witness: three empty iterations from a fresh loop state, with
both hypotheses discharged concretely. -/
theorem no_telemetry_before_client_witness :
    (runLoop2 (fun f => (f, true)) (fun _ => 0) loop2Init [none, none, none]).2 = [] ∧
    (runLoop2 (fun f => (f, true)) (fun _ => 0) loop2Init
      [none, none, none]).1.client_addr = none :=
  no_telemetry_before_client (fun f => (f, true)) (fun _ => 0) [none, none, none]
    loop2Init rfl (by simp)

/-- C5 counterexample: the jsbsim_bridge.py run_server loop tracks no
client endpoint; on its first successful tick, with no datagram ever
received, it already emits one telemetry datagram, addressed to the
fixed port port + 1. -/
theorem run_server_sends_without_client :
    ((runServerIter (fun x => x) (fun f => (f, true)) none true srvIdle).2).map Prod.fst =
      [initBridge.port + 1] ∧
    ((runServerIter (fun x => x) (fun f => (f, true)) none true srvIdle).2).length = 1 :=
  ⟨rfl, rfl⟩

end JSBSim
